import Mathlib

/-!
Shallow embedding of `render_octahedra.py` from the hoomd-workshop repository.

The script is a single adapter function `render(snapshot)` that builds a
fresnel scene (octahedral convex polyhedra instanced per particle, a box
outline, two lights, an orthographic camera) and path-traces it.

Modelling conventions:
* Real-number parameters are modelled as exact rationals (`ℚ`); every numeric
  literal of the source (0.01, 0.5, 1.1, 1.4, ...) is exactly representable.
* Angles occur in the source only as `math.pi` and `math.pi / 3`; they are
  represented exactly as rational multiples of π (the `Angle` structure).
* The external fresnel API is modelled at the adapter boundary: each
  constructor is a record that stores exactly the arguments the adapter
  passes to it, and `fresnel.color.linear` is a constructor tagging its
  sRGB argument (its numeric output is external-library behaviour the
  adapter never inspects).
* The fresnel version state is a parameter of `render`: either the module
  exposes no `version` attribute, or it exposes a parsed release version.
  Reading a missing attribute is an `AttributeError`, modelled with
  `Except.error`.
* Python `warnings.warn` only logs; emitted warnings are collected in the
  `warnings` field of the result.
* The numpy slice assignments `geometry.position[:] = ...` and
  `geometry.orientation[:] = ...` write into buffers of length `N`; per the
  documented backend behaviour a length mismatch fails at that assignment
  step, modelled as `Except.error`.
-/

namespace RenderOctahedra

/-- 3-component vector of exact rationals. -/
abbrev Vec3 := ℚ × ℚ × ℚ

/-- 4-component vector (quaternion) of exact rationals. -/
abbrev Vec4 := ℚ × ℚ × ℚ × ℚ

/-- A parsed release version, as produced by `packaging.version.parse` on
release strings such as "0.13.0". -/
structure PyVersion where
  major : Nat
  minor : Nat
  micro : Nat
deriving DecidableEq

/-- Lexicographic strict comparison of release versions, as implemented by
`packaging.version` on plain release triples. -/
def PyVersion.blt (a b : PyVersion) : Bool :=
  Nat.blt a.major b.major ||
    (a.major == b.major &&
      (Nat.blt a.minor b.minor ||
        (a.minor == b.minor && Nat.blt a.micro b.micro)))

/-- `FRESNEL_MIN_VERSION = packaging.version.parse("0.13.0")` (source line 11). -/
def FRESNEL_MIN_VERSION : PyVersion := ⟨0, 13, 0⟩

/-- `FRESNEL_MAX_VERSION = packaging.version.parse("0.14.0")` (source line 12). -/
def FRESNEL_MAX_VERSION : PyVersion := ⟨0, 14, 0⟩

/-- The observable version state of the fresnel module: either the module has
no `version` attribute (so that `"version" not in dir(fresnel)` is true), or
`fresnel.version.version` parses to the given release version. -/
inductive VersionState where
  | absent
  | present (v : PyVersion)
deriving DecidableEq

/-- Rendering of a version as the string interpolated into the warning. -/
def PyVersion.str (v : PyVersion) : String :=
  toString v.major ++ "." ++ toString v.minor ++ "." ++ toString v.micro

/-- The warning text of source lines 20-21
(the f-string interpolates `fresnel.version.version`). -/
def warnMessage (v : PyVersion) : String :=
  "Unsupported fresnel version " ++ v.str ++ " - expect errors."

/-- The boolean condition of source lines 16-19:
`"version" not in dir(fresnel) or parse(version) < MIN or parse(version) >= MAX`.
Python `or` short-circuits, so in the absent case the parses are not evaluated. -/
def versionWarnTriggered : VersionState → Bool
  | VersionState.absent => true
  | VersionState.present v =>
      v.blt FRESNEL_MIN_VERSION || !(v.blt FRESNEL_MAX_VERSION)

/-- Source lines 16-21: when the condition triggers, `warnings.warn` is called
on an f-string that reads `fresnel.version.version`.  When the attribute is
absent that read raises `AttributeError`; otherwise a single warning is
emitted and execution continues.  Returns the list of emitted warnings. -/
def versionCheckStep : VersionState → Except String (List String)
  | VersionState.absent =>
      Except.error "AttributeError: module fresnel has no attribute version"
  | VersionState.present v =>
      if versionWarnTriggered (VersionState.present v) then
        Except.ok [warnMessage v]
      else
        Except.ok []

/-- The hoomd configuration box: six components `[Lx, Ly, Lz, xy, xz, yz]`.
The adapter reads component 0 and also passes the whole box to
`fresnel.geometry.Box`. -/
structure HoomdBox where
  b0 : ℚ
  b1 : ℚ
  b2 : ℚ
  b3 : ℚ
  b4 : ℚ
  b5 : ℚ
deriving DecidableEq

/-- `snapshot.configuration`. -/
structure Configuration where
  box : HoomdBox
deriving DecidableEq

/-- `snapshot.particles`: a count and per-particle arrays. -/
structure Particles where
  N : Nat
  position : List Vec3
  orientation : List Vec4
deriving DecidableEq

/-- The input snapshot object. -/
structure Snapshot where
  configuration : Configuration
  particles : Particles
deriving DecidableEq

/-- The descriptor returned by `fresnel.util.convex_polyhedron_from_vertices`:
modelled at the adapter boundary as a record of the vertex list it was built
from (its derived face data is internal to fresnel). -/
structure PolyInfo where
  vertices : List Vec3
deriving DecidableEq

/-- `fresnel.util.convex_polyhedron_from_vertices`. -/
def convex_polyhedron_from_vertices (vs : List Vec3) : PolyInfo := ⟨vs⟩

/-- A color value in the fresnel API.  `linear srgb` is the result of
`fresnel.color.linear(srgb)`, tagged by its argument. -/
inductive Color where
  | linear (srgb : Vec3)
deriving DecidableEq

/-- `fresnel.material.Material(color=..., roughness=...)`. -/
structure Material where
  color : Color
  roughness : ℚ
deriving DecidableEq

/-- An angle represented exactly as `piFactor * π`. -/
structure Angle where
  piFactor : ℚ
deriving DecidableEq

/-- `math.pi`. -/
def math_pi : Angle := ⟨1⟩

/-- Division of an angle by a rational scalar, e.g. `math.pi / 3`. -/
def Angle.div (a : Angle) (q : ℚ) : Angle := ⟨a.piFactor / q⟩

/-- `fresnel.light.Light(direction=..., color=..., theta=...)`. -/
structure Light where
  direction : Vec3
  color : Vec3
  theta : Angle
deriving DecidableEq

/-- The `fresnel.geometry.ConvexPolyhedron` attached to the scene, with the
per-instance data and attributes the adapter sets on it. -/
structure Geometry where
  poly_info : PolyInfo
  N : Nat
  material : Material
  position : List Vec3
  orientation : List Vec4
  outline_width : ℚ
deriving DecidableEq

/-- `fresnel.geometry.Box(scene, box, box_radius=...)`. -/
structure BoxGeometry where
  box : HoomdBox
  box_radius : ℚ
deriving DecidableEq

/-- `fresnel.camera.Orthographic(position=..., look_at=..., up=..., height=...)`. -/
structure Camera where
  position : Vec3
  look_at : Vec3
  up : Vec3
  height : ℚ
deriving DecidableEq

/-- The assembled fresnel scene: the polyhedron geometry, the box outline,
the light list, the camera and the background color. -/
structure Scene where
  geometry : Geometry
  boxGeometry : BoxGeometry
  lights : List Light
  camera : Camera
  background_color : Vec3
deriving DecidableEq

/-- `fresnel.tracer.Path(device=device, w=..., h=...)`. -/
structure Tracer where
  w : Nat
  h : Nat
deriving DecidableEq

/-- Source line 9: `tracer = fresnel.tracer.Path(device=device, w=300, h=300)`,
module-level state created once per process. -/
def tracer : Tracer := { w := 300, h := 300 }

/-- The raster image produced by `tracer.sample`: a pixel buffer with the
dimensions of the tracer, produced with the given number of samples per
pixel. -/
structure Image where
  w : Nat
  h : Nat
  samples : Nat
deriving DecidableEq

/-- `tracer.sample(scene, samples=...)`: blocks until an image with the
dimensions of the tracer is produced. -/
def Tracer.sample (t : Tracer) (_scene : Scene) (samples : Nat) : Image :=
  { w := t.w, h := t.h, samples := samples }

/-- The observable outcome of a successful `render` call: the warnings written
to the log stream, the assembled scene, and the returned image. -/
structure RenderOutput where
  warnings : List String
  scene : Scene
  image : Image
deriving DecidableEq

/-- Shallow embedding of `render(snapshot)` (source lines 15-61), with the
fresnel version state as an explicit parameter.  Any error raised along the
way (the `AttributeError` from the warning f-string when the version
attribute is absent, or a shape mismatch at the numpy slice assignments)
propagates as `Except.error`. -/
def render (vs : VersionState) (snapshot : Snapshot) : Except String RenderOutput :=
  match versionCheckStep vs with
  | Except.error e => Except.error e
  | Except.ok warns =>
    let L := snapshot.configuration.box.b0
    let vertices : List Vec3 :=
      [(-0.5, 0, 0), (0.5, 0, 0), (0, -0.5, 0), (0, 0.5, 0), (0, 0, -0.5), (0, 0, 0.5)]
    let poly_info := convex_polyhedron_from_vertices vertices
    if snapshot.particles.position.length = snapshot.particles.N then
      if snapshot.particles.orientation.length = snapshot.particles.N then
        let geometry : Geometry :=
          { poly_info := poly_info,
            N := snapshot.particles.N,
            material := { color := Color.linear (0.01, 0.74, 0.26), roughness := 0.5 },
            position := snapshot.particles.position,
            orientation := snapshot.particles.orientation,
            outline_width := 0.01 }
        let box : BoxGeometry :=
          { box := snapshot.configuration.box, box_radius := 0.02 }
        let scene : Scene :=
          { geometry := geometry,
            boxGeometry := box,
            lights :=
              [{ direction := (0, 0, 1), color := (0.5, 0.5, 0.5), theta := math_pi },
               { direction := (1, 1, 1), color := (1.1, 1.1, 1.1), theta := math_pi.div 3 }],
            camera :=
              { position := (L * 2, L, L * 2),
                look_at := (0, 0, 0),
                up := (0, 1, 0),
                height := L * 1.4 + 1 },
            background_color := (1, 1, 1) }
        Except.ok
          { warnings := warns,
            scene := scene,
            image := tracer.sample scene 500 }
      else Except.error "ValueError: orientation array shape mismatch"
    else Except.error "ValueError: position array shape mismatch"

/-!  Helper lemma: the explicit value of a successful `render` call when the
version attribute is present and the snapshot arrays have length `N`. -/

theorem render_present_eq (v : PyVersion) (snap : Snapshot)
    (hp : snap.particles.position.length = snap.particles.N)
    (ho : snap.particles.orientation.length = snap.particles.N) :
    render (VersionState.present v) snap = Except.ok
      { warnings :=
          if versionWarnTriggered (VersionState.present v) then [warnMessage v] else [],
        scene :=
          { geometry :=
              { poly_info := convex_polyhedron_from_vertices
                  [(-0.5, 0, 0), (0.5, 0, 0), (0, -0.5, 0),
                   (0, 0.5, 0), (0, 0, -0.5), (0, 0, 0.5)],
                N := snap.particles.N,
                material :=
                  { color := Color.linear (0.01, 0.74, 0.26), roughness := 0.5 },
                position := snap.particles.position,
                orientation := snap.particles.orientation,
                outline_width := 0.01 },
            boxGeometry := { box := snap.configuration.box, box_radius := 0.02 },
            lights :=
              [{ direction := (0, 0, 1), color := (0.5, 0.5, 0.5), theta := math_pi },
               { direction := (1, 1, 1), color := (1.1, 1.1, 1.1), theta := math_pi.div 3 }],
            camera :=
              { position :=
                  (snap.configuration.box.b0 * 2, snap.configuration.box.b0,
                   snap.configuration.box.b0 * 2),
                look_at := (0, 0, 0),
                up := (0, 1, 0),
                height := snap.configuration.box.b0 * 1.4 + 1 },
            background_color := (1, 1, 1) },
        image := { w := 300, h := 300, samples := 500 } } := by
  unfold render versionCheckStep
  cases hw : versionWarnTriggered (VersionState.present v) <;>
    simp [hw, hp, ho, Tracer.sample, tracer]

/-!  Concrete sample inputs used by the counterexample and witness theorems. -/

/-- An in-range version, as on a supported fresnel installation. -/
def vIn : PyVersion := ⟨0, 13, 3⟩

/-- A version below the supported range. -/
def vLow : PyVersion := ⟨0, 12, 0⟩

/-- A version at the upper (excluded) bound of the supported range. -/
def vHigh : PyVersion := ⟨0, 14, 0⟩

/-- A cubic box of side 5. -/
def boxA : HoomdBox := ⟨5, 5, 5, 0, 0, 0⟩

/-- A non-cubic box agreeing with `boxA` on component 0 only. -/
def boxB : HoomdBox := ⟨5, 7, 9, 1, 0, 0⟩

/-- An empty snapshot: zero particles, empty arrays. -/
def snapEmpty : Snapshot :=
  { configuration := { box := boxA },
    particles := { N := 0, position := [], orientation := [] } }

/-- A three-particle snapshot with distinct positions and orientations. -/
def snap3 : Snapshot :=
  { configuration := { box := boxA },
    particles :=
      { N := 3,
        position := [(1, 2, 3), (4, 5, 6), (7, 8, 9)],
        orientation := [(1, 0, 0, 0), (0, 1, 0, 0), (0, 0, 1, 0)] } }

/-- The same snapshot data as `snap3`, written differently. -/
def snap3b : Snapshot :=
  { configuration := { box := { b0 := 5, b1 := 5, b2 := 5, b3 := 0, b4 := 0, b5 := 0 } },
    particles :=
      { N := 2 + 1,
        position := [(1, 2, 3)] ++ [(4, 5, 6), (7, 8, 9)],
        orientation := [(1, 0, 0, 0), (0, 1, 0, 0)] ++ [(0, 0, 1, 0)] } }

/-- A three-particle snapshot in the box `boxB`. -/
def snap3B : Snapshot :=
  { configuration := { box := boxB },
    particles :=
      { N := 3,
        position := [(1, 2, 3), (4, 5, 6), (7, 8, 9)],
        orientation := [(1, 0, 0, 0), (0, 1, 0, 0), (0, 0, 1, 0)] } }

/-- Claim C1 (code bug, evaluated at the failing input): when the fresnel
module exposes no version attribute, the warning condition triggers, but the
warning message f-string itself reads `fresnel.version.version`, which does
not exist — so `render` raises an `AttributeError` instead of warning and
continuing into scene construction, contradicting the spec sentence that the
version check never raises. -/
theorem C1_version_absent_raises :
    render VersionState.absent snapEmpty =
      Except.error "AttributeError: module fresnel has no attribute version" := by
  rfl

/-- Claim C2: scene construction is a pure function of the snapshot — two
calls to `render` on snapshots with equal box, particle count, position and
orientation data construct equal scenes, for every version state. -/
theorem C2_scene_pure_function_of_snapshot (vs : VersionState) (s1 s2 : Snapshot)
    (hbox : s1.configuration.box = s2.configuration.box)
    (hN : s1.particles.N = s2.particles.N)
    (hpos : s1.particles.position = s2.particles.position)
    (hor : s1.particles.orientation = s2.particles.orientation) :
    (render vs s1).map RenderOutput.scene = (render vs s2).map RenderOutput.scene := by
  have hs : s1 = s2 := by
    obtain ⟨⟨box1⟩, n1, p1, o1⟩ := s1
    obtain ⟨⟨box2⟩, n2, p2, o2⟩ := s2
    simp_all
  rw [hs]

theorem C2_scene_pure_witness :
    (render (VersionState.present vIn) snap3).map RenderOutput.scene =
      (render (VersionState.present vIn) snap3b).map RenderOutput.scene :=
  C2_scene_pure_function_of_snapshot (VersionState.present vIn) snap3 snap3b
    (by decide) (by decide) (by decide) (by decide)

/-- Claim C3: index correspondence — for every snapshot whose arrays have
length `N` and every index `i < N`, the geometry instance `i` of the scene
built by `render` carries exactly the snapshot position `i` and the snapshot
orientation `i`. -/
theorem C3_index_correspondence (v : PyVersion) (snap : Snapshot) (i : Nat)
    (hp : snap.particles.position.length = snap.particles.N)
    (ho : snap.particles.orientation.length = snap.particles.N)
    (_hi : i < snap.particles.N) :
    (render (VersionState.present v) snap).map
        (fun o => o.scene.geometry.position.get? i) =
      Except.ok (snap.particles.position.get? i) ∧
    (render (VersionState.present v) snap).map
        (fun o => o.scene.geometry.orientation.get? i) =
      Except.ok (snap.particles.orientation.get? i) := by
  rw [render_present_eq v snap hp ho]
  exact ⟨rfl, rfl⟩

theorem C3_index_correspondence_witness :
    (render (VersionState.present vIn) snap3).map
        (fun o => o.scene.geometry.position.get? 1) =
      Except.ok (some (4, 5, 6)) ∧
    (render (VersionState.present vIn) snap3).map
        (fun o => o.scene.geometry.orientation.get? 1) =
      Except.ok (some (0, 1, 0, 0)) :=
  C3_index_correspondence vIn snap3 1 (by decide) (by decide) (by decide)

/-- Claim C4: the attached camera is orthographic (the only constructor the
embedding models, `fresnel.camera.Orthographic`) positioned at
`(2L, L, 2L)` for `L` the box component 0, looking at the origin, with
up-vector `(0, 1, 0)` and height `1.4 * L + 1`. -/
theorem C4_camera (v : PyVersion) (snap : Snapshot)
    (hp : snap.particles.position.length = snap.particles.N)
    (ho : snap.particles.orientation.length = snap.particles.N) :
    (render (VersionState.present v) snap).map (fun o => o.scene.camera) =
      Except.ok
        { position := (2 * snap.configuration.box.b0, snap.configuration.box.b0,
                       2 * snap.configuration.box.b0),
          look_at := (0, 0, 0),
          up := (0, 1, 0),
          height := 1.4 * snap.configuration.box.b0 + 1 } := by
  rw [render_present_eq v snap hp ho]
  simp [Except.map, Camera.mk.injEq, Prod.mk.injEq, mul_comm]

theorem C4_camera_witness :
    (render (VersionState.present vIn) snap3).map (fun o => o.scene.camera) =
      Except.ok
        { position := (2 * 5, 5, 2 * 5),
          look_at := (0, 0, 0),
          up := (0, 1, 0),
          height := 1.4 * 5 + 1 } :=
  C4_camera vIn snap3 (by decide) (by decide)

/-- Claim C5: exactly two lights are attached, independent of the snapshot:
light A with direction `(0, 0, 1)`, color `(0.5, 0.5, 0.5)` and half-angle
`π`; light B with direction `(1, 1, 1)`, color `(1.1, 1.1, 1.1)` and
half-angle `π / 3`. -/
theorem C5_lights (v : PyVersion) (snap : Snapshot)
    (hp : snap.particles.position.length = snap.particles.N)
    (ho : snap.particles.orientation.length = snap.particles.N) :
    (render (VersionState.present v) snap).map (fun o => o.scene.lights) =
      Except.ok
        [{ direction := (0, 0, 1), color := (0.5, 0.5, 0.5), theta := math_pi },
         { direction := (1, 1, 1), color := (1.1, 1.1, 1.1), theta := math_pi.div 3 }] := by
  rw [render_present_eq v snap hp ho]
  rfl

theorem C5_lights_witness :
    (render (VersionState.present vIn) snapEmpty).map (fun o => o.scene.lights) =
      Except.ok
        [{ direction := (0, 0, 1), color := (0.5, 0.5, 0.5), theta := math_pi },
         { direction := (1, 1, 1), color := (1.1, 1.1, 1.1), theta := math_pi.div 3 }] :=
  C5_lights vIn snapEmpty (by decide) (by decide)

/-- Claim C6: every geometry instance carries the single shared material with
color `fresnel.color.linear((0.01, 0.74, 0.26))` and roughness `0.5`; the
geometry outline width is `0.01`; and the one box-outline primitive is built
from the full snapshot box with radius `0.02`. -/
theorem C6_material_and_outlines (v : PyVersion) (snap : Snapshot)
    (hp : snap.particles.position.length = snap.particles.N)
    (ho : snap.particles.orientation.length = snap.particles.N) :
    (render (VersionState.present v) snap).map
        (fun o => (o.scene.geometry.material, o.scene.geometry.outline_width,
                   o.scene.boxGeometry)) =
      Except.ok
        ({ color := Color.linear (0.01, 0.74, 0.26), roughness := 0.5 }, 0.01,
         { box := snap.configuration.box, box_radius := 0.02 }) := by
  rw [render_present_eq v snap hp ho]
  rfl

theorem C6_material_witness :
    (render (VersionState.present vIn) snap3).map
        (fun o => (o.scene.geometry.material, o.scene.geometry.outline_width,
                   o.scene.boxGeometry)) =
      Except.ok
        ({ color := Color.linear (0.01, 0.74, 0.26), roughness := 0.5 }, 0.01,
         { box := boxA, box_radius := 0.02 }) :=
  C6_material_and_outlines vIn snap3 (by decide) (by decide)

/-- Claim C7: the module-level tracer is configured for a 300 by 300 output,
and the image returned by `render` is the tracer output with 500 samples per
pixel, for every snapshot and version. -/
theorem C7_output_shape (v : PyVersion) (snap : Snapshot)
    (hp : snap.particles.position.length = snap.particles.N)
    (ho : snap.particles.orientation.length = snap.particles.N) :
    tracer = { w := 300, h := 300 } ∧
    (render (VersionState.present v) snap).map RenderOutput.image =
      Except.ok { w := 300, h := 300, samples := 500 } := by
  refine ⟨rfl, ?_⟩
  rw [render_present_eq v snap hp ho]
  rfl

theorem C7_output_shape_witness :
    tracer = { w := 300, h := 300 } ∧
    (render (VersionState.present vIn) snap3).map RenderOutput.image =
      Except.ok { w := 300, h := 300, samples := 500 } :=
  C7_output_shape vIn snap3 (by decide) (by decide)

/-- Claim C8: the convex-polyhedron descriptor of the built scene is derived
from exactly the fixed 6-vertex octahedron list, independent of the snapshot
(in this pure embedding the list is immutable by construction). -/
theorem C8_polyhedron_template (v : PyVersion) (snap : Snapshot)
    (hp : snap.particles.position.length = snap.particles.N)
    (ho : snap.particles.orientation.length = snap.particles.N) :
    (render (VersionState.present v) snap).map (fun o => o.scene.geometry.poly_info) =
      Except.ok (convex_polyhedron_from_vertices
        [(-0.5, 0, 0), (0.5, 0, 0), (0, -0.5, 0),
         (0, 0.5, 0), (0, 0, -0.5), (0, 0, 0.5)]) := by
  rw [render_present_eq v snap hp ho]
  rfl

theorem C8_polyhedron_template_witness :
    (render (VersionState.present vIn) snap3).map (fun o => o.scene.geometry.poly_info) =
      Except.ok (convex_polyhedron_from_vertices
        [(-0.5, 0, 0), (0.5, 0, 0), (0, -0.5, 0),
         (0, 0.5, 0), (0, 0, -0.5), (0, 0, 0.5)]) :=
  C8_polyhedron_template vIn snap3 (by decide) (by decide)

/-- Claim C9: on an empty snapshot (zero particles, empty arrays), `render`
with a present version attribute completes without raising and returns the
300 by 300 image, the geometry instance set being empty and the scene still
containing the box outline. -/
theorem C9_empty_snapshot (v : PyVersion) (snap : Snapshot)
    (hN : snap.particles.N = 0)
    (hpos : snap.particles.position = [])
    (hor : snap.particles.orientation = []) :
    ∃ out, render (VersionState.present v) snap = Except.ok out ∧
      out.scene.geometry.N = 0 ∧
      out.scene.geometry.position = [] ∧
      out.scene.geometry.orientation = [] ∧
      out.scene.boxGeometry = { box := snap.configuration.box, box_radius := 0.02 } ∧
      out.image = { w := 300, h := 300, samples := 500 } := by
  have hp : snap.particles.position.length = snap.particles.N := by
    rw [hpos, hN]
    rfl
  have ho : snap.particles.orientation.length = snap.particles.N := by
    rw [hor, hN]
    rfl
  exact ⟨_, render_present_eq v snap hp ho, hN, hpos, hor, rfl, rfl⟩

theorem C9_empty_snapshot_witness :
    ∃ out, render (VersionState.present vHigh) snapEmpty = Except.ok out ∧
      out.scene.geometry.N = 0 ∧
      out.scene.geometry.position = [] ∧
      out.scene.geometry.orientation = [] ∧
      out.scene.boxGeometry = { box := boxA, box_radius := 0.02 } ∧
      out.image = { w := 300, h := 300, samples := 500 } :=
  C9_empty_snapshot vHigh snapEmpty rfl rfl rfl

/-- Claim C10: the camera depends only on box component 0 — two snapshots
agreeing there get identical cameras — while the box-outline primitive is
built from the full six-component box tuple of each snapshot. -/
theorem C10_camera_box_component_zero (v : PyVersion) (s1 s2 : Snapshot)
    (h0 : s1.configuration.box.b0 = s2.configuration.box.b0)
    (hp1 : s1.particles.position.length = s1.particles.N)
    (ho1 : s1.particles.orientation.length = s1.particles.N)
    (hp2 : s2.particles.position.length = s2.particles.N)
    (ho2 : s2.particles.orientation.length = s2.particles.N) :
    (render (VersionState.present v) s1).map (fun o => o.scene.camera) =
      (render (VersionState.present v) s2).map (fun o => o.scene.camera) ∧
    (render (VersionState.present v) s1).map (fun o => o.scene.boxGeometry.box) =
      Except.ok s1.configuration.box ∧
    (render (VersionState.present v) s2).map (fun o => o.scene.boxGeometry.box) =
      Except.ok s2.configuration.box := by
  rw [render_present_eq v s1 hp1 ho1, render_present_eq v s2 hp2 ho2]
  refine ⟨?_, rfl, rfl⟩
  simp [Except.map, h0]

theorem C10_camera_box_witness :
    (render (VersionState.present vIn) snap3).map (fun o => o.scene.camera) =
      (render (VersionState.present vIn) snap3B).map (fun o => o.scene.camera) ∧
    (render (VersionState.present vIn) snap3).map (fun o => o.scene.boxGeometry.box) =
      Except.ok boxA ∧
    (render (VersionState.present vIn) snap3B).map (fun o => o.scene.boxGeometry.box) =
      Except.ok boxB :=
  C10_camera_box_component_zero vIn snap3 snap3B (by decide)
    (by decide) (by decide) (by decide) (by decide)

end RenderOctahedra
